import Mathlib

/-!
# Verification of the emotional-state synchronization core (`src/project/src/App.tsx`)

A shallow embedding of the stateful core of the `App` component: the
emotion classifier (`getEmotionalStateDescription`), the parameter store
(`handleParameterChange`), the emotion-sync controller (`calculateEmotions`)
and the message dispatcher (`handleSubmit`).  JavaScript numbers are
modelled as rationals (`ℚ`); the asynchronous handlers are split at their
`await` points into a synchronous issue step and a completion step, and the
whole component is given as a small-step event semantics on an `AppState`
record mirroring the React `useState` hooks.
-/

set_option autoImplicit false

namespace FrontendAI

/-- The `EmotionalState` interface (App.tsx lines 23-26): two numeric
channels, anger and sadness. -/
structure EmotionalState where
  anger : ℚ
  sadness : ℚ
deriving DecidableEq

/-- The `EmotionalParameters` interface (App.tsx lines 14-21): the six
affect parameters. -/
structure EmotionalParameters where
  valence : ℚ
  arousal : ℚ
  selectionThreshold : ℚ
  resolution : ℚ
  goalDirectedness : ℚ
  securingRate : ℚ
deriving DecidableEq

/-- The `Message` interface (App.tsx lines 4-12).  `Date` timestamps are
modelled as abstract instants (`Nat` ticks of a logical clock); the optional
`emotionalState` field is an `Option`, absent on user messages. -/
structure Message where
  text : String
  isUser : Bool
  timestamp : Nat
  emotionalState : Option EmotionalState
deriving DecidableEq

/-- `getEmotionalStateDescription` (App.tsx lines 86-96): normalizes each
channel by `(raw / 7) * 5` and returns the first matching label. -/
def getEmotionalStateDescription (state : EmotionalState) : String :=
  let normalizedAnger : ℚ := state.anger / 7 * 5
  let normalizedSadness : ℚ := state.sadness / 7 * 5
  if normalizedAnger > 4 then "Very Agitated"
  else if normalizedAnger > 3 then "Frustrated"
  else if normalizedSadness > 4 then "Very Sad"
  else if normalizedSadness > 3 then "Melancholic"
  else if normalizedAnger < 2 ∧ normalizedSadness < 2 then "Calm"
  else "Neutral"

/-- The keys of `EmotionalParameters` (`keyof EmotionalParameters` in
`handleParameterChange`, App.tsx line 79). -/
inductive ParamKey where
  | valence
  | arousal
  | selectionThreshold
  | resolution
  | goalDirectedness
  | securingRate
deriving DecidableEq

/-- Field lookup on the parameter record, one case per key. -/
def getParam (p : EmotionalParameters) : ParamKey → ℚ
  | .valence => p.valence
  | .arousal => p.arousal
  | .selectionThreshold => p.selectionThreshold
  | .resolution => p.resolution
  | .goalDirectedness => p.goalDirectedness
  | .securingRate => p.securingRate

/-- `handleParameterChange` (App.tsx lines 79-84): the functional update
`setParameters(prev => ({ ...prev, [param]: value }))` — a whole-record
replace with a single field overridden, no clamping. -/
def handleParameterChange (prev : EmotionalParameters) (param : ParamKey)
    (value : ℚ) : EmotionalParameters :=
  match param with
  | .valence => { prev with valence := value }
  | .arousal => { prev with arousal := value }
  | .selectionThreshold => { prev with selectionThreshold := value }
  | .resolution => { prev with resolution := value }
  | .goalDirectedness => { prev with goalDirectedness := value }
  | .securingRate => { prev with securingRate := value }

/-- Outcome of one `fetch` to the emotion-computation collaborator
(`calculateEmotions`, App.tsx lines 58-77): the promise rejects (network
error), `response.ok` is false (line 68 throws), `response.json()` fails
(line 71 throws), or a body decoding to an `EmotionalState` is received. -/
inductive CalcOutcome where
  | networkError
  | httpError
  | decodeError
  | success (data : EmotionalState)
deriving DecidableEq

/-- Outcome of one `fetch` to the reply collaborator (`handleSubmit`,
App.tsx lines 111-144): same failure taxonomy, success carries the
`data.reply` string (line 128). -/
inductive SendOutcome where
  | networkError
  | httpError
  | decodeError
  | success (reply : String)
deriving DecidableEq

/-- The values `handleSubmit` closes over when it issues its request
(App.tsx lines 113-131): `inputMessage`, `parameters` (request body, lines
118-121) and `emotionalState` (used for the snapshot at lines 131/140).
These are the render-time values, unaffected by state updates that land
while the request is in flight. -/
structure PendingSend where
  message : String
  parameters : EmotionalParameters
  emotionalState : EmotionalState
deriving DecidableEq

/-- The component state: one field per `useState` hook of `App` (App.tsx
lines 29-44), plus the outstanding asynchronous requests (the bodies of
in-flight `calculate-emotions` calls in issue order, and the closure of an
in-flight `send-message` call) and a logical clock for timestamps. -/
structure AppState where
  messages : List Message
  inputMessage : String
  emotionalState : EmotionalState
  isProcessing : Bool
  backendError : Bool
  parameters : EmotionalParameters
  pendingCalcs : List EmotionalParameters
  pendingSend : Option PendingSend
  now : Nat
deriving DecidableEq

/-- The initial component state (App.tsx lines 29-44). -/
def initState : AppState :=
  { messages := []
    inputMessage := ""
    emotionalState := { anger := 1, sadness := 1 }
    isProcessing := false
    backendError := false
    parameters :=
      { valence := 9/2, arousal := 5, selectionThreshold := 16/5
        resolution := 24/5, goalDirectedness := 6, securingRate := 7/2 }
    pendingCalcs := []
    pendingSend := none
    now := 0 }

/-- The synchronous prefix of `calculateEmotions` (App.tsx lines 58-67):
`setBackendError(false)` runs before the `await fetch`, and the request is
issued with the current `parameters` as body.  The result has not arrived
yet; the request joins the outstanding list. -/
def calculateEmotionsStart (s : AppState) : AppState :=
  { s with backendError := false, pendingCalcs := s.pendingCalcs ++ [s.parameters] }

/-- The continuation of `calculateEmotions` after the `await` (App.tsx
lines 68-76): on a fully decoded body, `setEmotionalState(data)`; any
thrown error (network, `!response.ok`, undecodable body) reaches the
`catch` which only does `setBackendError(true)`. -/
def applyCalcOutcome (s : AppState) (o : CalcOutcome) : AppState :=
  match o with
  | .success data => { s with emotionalState := data }
  | .networkError => { s with backendError := true }
  | .httpError => { s with backendError := true }
  | .decodeError => { s with backendError := true }

/-- Arrival of the response to the i-th outstanding `calculate-emotions`
request.  The continuation (App.tsx lines 68-76) does not inspect which
request it belongs to — there is no sequence tag — so the state effect is
`applyCalcOutcome` regardless of `i`; removing the i-th pending entry is
pure bookkeeping. -/
def calcDoneEvent (s : AppState) (i : Nat) (o : CalcOutcome) : AppState :=
  if i < s.pendingCalcs.length then
    applyCalcOutcome { s with pendingCalcs := s.pendingCalcs.eraseIdx i } o
  else s

/-- A slider edit: `handleParameterChange` (App.tsx lines 79-84) replaces
the parameter record, and the `useEffect` on `[parameters]` (lines 54-56)
then invokes `calculateEmotions`, whose synchronous prefix runs at once. -/
def paramChangeEvent (s : AppState) (param : ParamKey) (value : ℚ) : AppState :=
  calculateEmotionsStart
    { s with parameters := handleParameterChange s.parameters param value }

/-- JavaScript `String.prototype.trim`: strip leading and trailing
whitespace (modelled over the ASCII whitespace characters). -/
def jsTrim (s : String) : String :=
  ⟨((s.data.dropWhile Char.isWhitespace).reverse.dropWhile Char.isWhitespace).reverse⟩

/-- Whether the message form accepts input: both the text field and the
send button carry `disabled={isProcessing || backendError}` (App.tsx lines
278 and 287), so typing and submission only reach the handlers when both
flags are clear. -/
def submitEnabled (s : AppState) : Bool :=
  !(s.isProcessing || s.backendError)

/-- The synchronous prefix of `handleSubmit` (App.tsx lines 98-122): the
guard `if (!inputMessage.trim() || isProcessing) return` (line 100), then
`setIsProcessing(true)`, the optimistic append of the user message (no
`emotionalState` field), `setInputMessage('')`, `setBackendError(false)`,
and the request issue capturing `inputMessage`, `parameters` and
`emotionalState` from the closure.  `.trim()` is modelled by `jsTrim`. -/
def handleSubmitStart (s : AppState) : AppState :=
  if (jsTrim s.inputMessage).isEmpty || s.isProcessing then s
  else
    { s with
      isProcessing := true
      messages := s.messages ++
        [{ text := s.inputMessage, isUser := true, timestamp := s.now
           emotionalState := none }]
      inputMessage := ""
      backendError := false
      pendingSend := some
        { message := s.inputMessage, parameters := s.parameters
          emotionalState := s.emotionalState }
      now := s.now + 1 }

/-- The fixed fallback text appended on a failed submission (App.tsx
line 137). -/
def fallbackText : String :=
  "I'm currently unable to process messages. Please ensure the backend server is running."

/-- The continuation of `handleSubmit` after the `await` (App.tsx lines
123-144), given the closure `p` captured at issue: on success, append the
assistant message with `data.reply` and the captured `emotionalState`
snapshot (lines 127-132); on any thrown error, `setBackendError(true)` and
append the fallback assistant message with the same captured snapshot
(lines 133-141); the `finally` clears `isProcessing` (lines 142-144). -/
def handleSubmitComplete (s : AppState) (p : PendingSend) (o : SendOutcome) :
    AppState :=
  match o with
  | .success reply =>
      { s with
        messages := s.messages ++
          [{ text := reply, isUser := false, timestamp := s.now
             emotionalState := some p.emotionalState }]
        now := s.now + 1
        isProcessing := false
        pendingSend := none }
  | .networkError =>
      { s with
        backendError := true
        messages := s.messages ++
          [{ text := fallbackText, isUser := false, timestamp := s.now
             emotionalState := some p.emotionalState }]
        now := s.now + 1
        isProcessing := false
        pendingSend := none }
  | .httpError =>
      { s with
        backendError := true
        messages := s.messages ++
          [{ text := fallbackText, isUser := false, timestamp := s.now
             emotionalState := some p.emotionalState }]
        now := s.now + 1
        isProcessing := false
        pendingSend := none }
  | .decodeError =>
      { s with
        backendError := true
        messages := s.messages ++
          [{ text := fallbackText, isUser := false, timestamp := s.now
             emotionalState := some p.emotionalState }]
        now := s.now + 1
        isProcessing := false
        pendingSend := none }

/-- Arrival of the response to the outstanding `send-message` request; a
no-op when none is outstanding. -/
def sendDoneEvent (s : AppState) (o : SendOutcome) : AppState :=
  match s.pendingSend with
  | none => s
  | some p => handleSubmitComplete s p o

/-- A form submission through the UI: swallowed by the `disabled`
attributes when the form is inactive, otherwise `handleSubmit` runs. -/
def submitEvent (s : AppState) : AppState :=
  if submitEnabled s then handleSubmitStart s else s

/-- Typing into the text field: `setInputMessage(e.target.value)` (App.tsx
line 275), available only while the field is enabled (line 278). -/
def typeEvent (s : AppState) (text : String) : AppState :=
  if submitEnabled s then { s with inputMessage := text } else s

/-- The external events the component reacts to. -/
inductive Event where
  | edit (param : ParamKey) (value : ℚ)
  | calcDone (i : Nat) (o : CalcOutcome)
  | type (text : String)
  | submit
  | sendDone (o : SendOutcome)
deriving DecidableEq

/-- Small-step semantics: one event, one synchronous state transition. -/
def step (s : AppState) : Event → AppState
  | .edit param value => paramChangeEvent s param value
  | .calcDone i o => calcDoneEvent s i o
  | .type text => typeEvent s text
  | .submit => submitEvent s
  | .sendDone o => sendDoneEvent s o

/-- Run a list of events in order. -/
def run (s : AppState) (l : List Event) : AppState :=
  l.foldl step s

/-- The six labels `getEmotionalStateDescription` can return. -/
def emotionLabels : List String :=
  ["Very Agitated", "Frustrated", "Very Sad", "Melancholic", "Calm", "Neutral"]

/-! ## Claims -/

/-- Claim C1: `getEmotionalStateDescription` is total over `EmotionalState`
(anger, sadness), normalizes each channel via `normalized = (raw / 7) * 5`,
returns exactly one of the six labels by first-match priority
(`normalizedAnger > 4` → "Very Agitated"; else `> 3` → "Frustrated"; else
`normalizedSadness > 4` → "Very Sad"; else `> 3` → "Melancholic"; else both
`< 2` → "Calm"; otherwise "Neutral"); in particular anger=7, sadness=0
yields "Very Agitated" and anger=2, sadness=2 yields "Calm". -/
theorem classify_total_priority (state : EmotionalState) :
    getEmotionalStateDescription state ∈ emotionLabels ∧
    (state.anger / 7 * 5 > 4 →
      getEmotionalStateDescription state = "Very Agitated") ∧
    (¬ state.anger / 7 * 5 > 4 → state.anger / 7 * 5 > 3 →
      getEmotionalStateDescription state = "Frustrated") ∧
    (¬ state.anger / 7 * 5 > 4 → ¬ state.anger / 7 * 5 > 3 →
      state.sadness / 7 * 5 > 4 →
      getEmotionalStateDescription state = "Very Sad") ∧
    (¬ state.anger / 7 * 5 > 4 → ¬ state.anger / 7 * 5 > 3 →
      ¬ state.sadness / 7 * 5 > 4 → state.sadness / 7 * 5 > 3 →
      getEmotionalStateDescription state = "Melancholic") ∧
    (¬ state.anger / 7 * 5 > 4 → ¬ state.anger / 7 * 5 > 3 →
      ¬ state.sadness / 7 * 5 > 4 → ¬ state.sadness / 7 * 5 > 3 →
      state.anger / 7 * 5 < 2 ∧ state.sadness / 7 * 5 < 2 →
      getEmotionalStateDescription state = "Calm") ∧
    (¬ state.anger / 7 * 5 > 4 → ¬ state.anger / 7 * 5 > 3 →
      ¬ state.sadness / 7 * 5 > 4 → ¬ state.sadness / 7 * 5 > 3 →
      ¬ (state.anger / 7 * 5 < 2 ∧ state.sadness / 7 * 5 < 2) →
      getEmotionalStateDescription state = "Neutral") ∧
    getEmotionalStateDescription { anger := 7, sadness := 0 } = "Very Agitated" ∧
    getEmotionalStateDescription { anger := 2, sadness := 2 } = "Calm" := by
  refine ⟨?_, ?_, ?_, ?_, ?_, ?_, ?_, ?_, ?_⟩
  · simp only [getEmotionalStateDescription, emotionLabels]
    split_ifs <;> simp
  · intro h1
    simp only [getEmotionalStateDescription]
    rw [if_pos h1]
  · intro h1 h2
    simp only [getEmotionalStateDescription]
    rw [if_neg h1, if_pos h2]
  · intro h1 h2 h3
    simp only [getEmotionalStateDescription]
    rw [if_neg h1, if_neg h2, if_pos h3]
  · intro h1 h2 h3 h4
    simp only [getEmotionalStateDescription]
    rw [if_neg h1, if_neg h2, if_neg h3, if_pos h4]
  · intro h1 h2 h3 h4 h5
    simp only [getEmotionalStateDescription]
    rw [if_neg h1, if_neg h2, if_neg h3, if_neg h4, if_pos h5]
  · intro h1 h2 h3 h4 h5
    simp only [getEmotionalStateDescription]
    rw [if_neg h1, if_neg h2, if_neg h3, if_neg h4, if_neg h5]
  · simp only [getEmotionalStateDescription]
    norm_num
  · simp only [getEmotionalStateDescription]
    norm_num

/-- Claim C1 witness: the two concrete classifications, obtained by
applying the priority clauses at concrete inputs. -/
theorem classify_total_priority_witness :
    getEmotionalStateDescription { anger := 7, sadness := 0 } = "Very Agitated" ∧
    getEmotionalStateDescription { anger := 2, sadness := 2 } = "Calm" :=
  ⟨(classify_total_priority { anger := 7, sadness := 0 }).2.1 (by norm_num),
   (classify_total_priority { anger := 2, sadness := 2 }).2.2.2.2.2.1
     (by norm_num) (by norm_num) (by norm_num) (by norm_num) (by norm_num)⟩

/-- Claim C8: `handleParameterChange` replaces the whole parameter record
by one whose chosen field equals the given value and whose other five
fields are exactly their previous values; no clamping to [1,7] is applied
(the field equals the given value verbatim for every rational value). -/
theorem handleParameterChange_frame (prev : EmotionalParameters)
    (param : ParamKey) (value : ℚ) :
    getParam (handleParameterChange prev param value) param = value ∧
    ∀ q : ParamKey, q ≠ param →
      getParam (handleParameterChange prev param value) q = getParam prev q := by
  cases param <;>
    exact ⟨rfl, by intro q hq; cases q <;> simp_all [getParam, handleParameterChange]⟩

/-- Claim C8 witness: setting `valence` to 100 (outside [1,7]) stores 100
verbatim and leaves `arousal` untouched. -/
theorem handleParameterChange_frame_witness :
    getParam (handleParameterChange initState.parameters ParamKey.valence 100)
      ParamKey.valence = 100 ∧
    getParam (handleParameterChange initState.parameters ParamKey.valence 100)
      ParamKey.arousal = getParam initState.parameters ParamKey.arousal :=
  ⟨(handleParameterChange_frame initState.parameters ParamKey.valence 100).1,
   (handleParameterChange_frame initState.parameters ParamKey.valence 100).2
     ParamKey.arousal (by decide)⟩

/-- Claim C10: a submission whose input text trims to the empty string is a
complete no-op even when the dispatcher is idle: both the UI-level
submission event and the bare `handleSubmit` body leave the entire state
unchanged (no message appended, no request issued, busy flag untouched). -/
theorem submit_blank_noop (s : AppState)
    (h : (jsTrim s.inputMessage).isEmpty = true) :
    submitEvent s = s ∧ handleSubmitStart s = s := by
  have hstart : handleSubmitStart s = s := by
    unfold handleSubmitStart
    simp [h]
  refine ⟨?_, hstart⟩
  unfold submitEvent
  split_ifs <;> simp [hstart]

/-- Claim C10 witness: a whitespace-only submission on the idle initial
state is the identity. -/
theorem submit_blank_noop_witness :
    submitEvent { initState with inputMessage := "   " } =
      { initState with inputMessage := "   " } ∧
    handleSubmitStart { initState with inputMessage := "   " } =
      { initState with inputMessage := "   " } :=
  submit_blank_noop { initState with inputMessage := "   " } (by decide)

/-- Claim C6: a submission attempted while the busy flag is set, or while
`backendError` indicates failure (the form controls are disabled in both
cases, and `handleSubmit` itself additionally guards on `isProcessing`), is
a complete no-op: the state — conversation log, pending requests, flags —
is unchanged and no error is raised. -/
theorem submit_busy_noop (s : AppState)
    (h : s.isProcessing = true ∨ s.backendError = true) :
    submitEvent s = s := by
  unfold submitEvent submitEnabled
  rcases h with h | h <;> simp [h]

/-- Claim C6 witness: a submission with non-blank input while busy is the
identity. -/
theorem submit_busy_noop_witness :
    submitEvent { initState with inputMessage := "hi", isProcessing := true } =
      { initState with inputMessage := "hi", isProcessing := true } :=
  submit_busy_noop { initState with inputMessage := "hi", isProcessing := true }
    (Or.inl rfl)

/-- Claim C3: when a `calculate-emotions` call fails — network error,
non-success HTTP status, or undecodable body — `backendError` ends up set
and `emotionalState` is exactly the value it had before the call (the
issuing step does not touch it either); the conversation log is also
untouched. -/
theorem calc_failure_preserves_state (s : AppState) (i : Nat) (o : CalcOutcome)
    (hi : i < s.pendingCalcs.length)
    (ho : o = CalcOutcome.networkError ∨ o = CalcOutcome.httpError ∨
      o = CalcOutcome.decodeError) :
    (calcDoneEvent s i o).backendError = true ∧
    (calcDoneEvent s i o).emotionalState = s.emotionalState ∧
    (calcDoneEvent s i o).messages = s.messages ∧
    (calculateEmotionsStart s).emotionalState = s.emotionalState := by
  rcases ho with ho | ho | ho <;> subst ho <;>
    simp [calcDoneEvent, applyCalcOutcome, calculateEmotionsStart, hi]

/-- Claim C3 witness: a network failure of the request issued by an edit of
`valence` leaves `emotionalState` at its prior value and sets the flag. -/
theorem calc_failure_preserves_state_witness :
    (calcDoneEvent (paramChangeEvent initState ParamKey.valence 2) 0
      CalcOutcome.networkError).backendError = true ∧
    (calcDoneEvent (paramChangeEvent initState ParamKey.valence 2) 0
      CalcOutcome.networkError).emotionalState =
      (paramChangeEvent initState ParamKey.valence 2).emotionalState ∧
    (calcDoneEvent (paramChangeEvent initState ParamKey.valence 2) 0
      CalcOutcome.networkError).messages =
      (paramChangeEvent initState ParamKey.valence 2).messages ∧
    (calculateEmotionsStart (paramChangeEvent initState ParamKey.valence 2)
      ).emotionalState =
      (paramChangeEvent initState ParamKey.valence 2).emotionalState :=
  calc_failure_preserves_state (paramChangeEvent initState ParamKey.valence 2) 0
    CalcOutcome.networkError (by decide) (Or.inl rfl)

/-- Claim C4 counterexample: `backendError` is not cleared only on request
success — `calculateEmotions` runs `setBackendError(false)` before its
`await fetch` (App.tsx line 60), so from a state with `backendError = true`
merely issuing a new request (the result not yet arrived: the request is
still in the outstanding list, and `emotionalState` is untouched) already
clears the flag. -/
theorem backendError_cleared_at_issue :
    ({ initState with backendError := true } : AppState).backendError = true ∧
    (calculateEmotionsStart
      { initState with backendError := true }).backendError = false ∧
    (calculateEmotionsStart
      { initState with backendError := true }).pendingCalcs.length = 1 ∧
    (calculateEmotionsStart
      { initState with backendError := true }).emotionalState =
      ({ initState with backendError := true } : AppState).emotionalState :=
  ⟨rfl, rfl, rfl, rfl⟩

/-- Claim C4 amended: `backendError` is cleared at the moment a new
`calculate-emotions` request is issued (before its result has arrived),
not only on success; a completion that fails sets it to failed again,
and a successful completion replaces `emotionalState` with the received
value and leaves the flag as it stands. -/
theorem backendError_lifecycle (s : AppState) (i : Nat) (o : CalcOutcome)
    (data : EmotionalState) (hi : i < s.pendingCalcs.length)
    (ho : o = CalcOutcome.networkError ∨ o = CalcOutcome.httpError ∨
      o = CalcOutcome.decodeError) :
    (calculateEmotionsStart s).backendError = false ∧
    (calculateEmotionsStart s).emotionalState = s.emotionalState ∧
    (calculateEmotionsStart s).pendingCalcs = s.pendingCalcs ++ [s.parameters] ∧
    (calcDoneEvent s i o).backendError = true ∧
    (calcDoneEvent s i (CalcOutcome.success data)).emotionalState = data ∧
    (calcDoneEvent s i (CalcOutcome.success data)).backendError =
      s.backendError := by
  refine ⟨rfl, rfl, rfl, ?_, ?_, ?_⟩
  · rcases ho with ho | ho | ho <;> subst ho <;>
      simp [calcDoneEvent, applyCalcOutcome, hi]
  · simp [calcDoneEvent, applyCalcOutcome, hi]
  · simp [calcDoneEvent, applyCalcOutcome, hi]

/-- Claim C4 amended witness: concrete lifecycle on the request issued by
a `valence` edit. -/
theorem backendError_lifecycle_witness :
    (calculateEmotionsStart (paramChangeEvent initState ParamKey.valence 2)
      ).backendError = false ∧
    (calculateEmotionsStart (paramChangeEvent initState ParamKey.valence 2)
      ).emotionalState =
      (paramChangeEvent initState ParamKey.valence 2).emotionalState ∧
    (calculateEmotionsStart (paramChangeEvent initState ParamKey.valence 2)
      ).pendingCalcs =
      (paramChangeEvent initState ParamKey.valence 2).pendingCalcs ++
        [(paramChangeEvent initState ParamKey.valence 2).parameters] ∧
    (calcDoneEvent (paramChangeEvent initState ParamKey.valence 2) 0
      CalcOutcome.httpError).backendError = true ∧
    (calcDoneEvent (paramChangeEvent initState ParamKey.valence 2) 0
      (CalcOutcome.success { anger := 4, sadness := 4 })).emotionalState =
      { anger := 4, sadness := 4 } ∧
    (calcDoneEvent (paramChangeEvent initState ParamKey.valence 2) 0
      (CalcOutcome.success { anger := 4, sadness := 4 })).backendError =
      (paramChangeEvent initState ParamKey.valence 2).backendError :=
  backendError_lifecycle (paramChangeEvent initState ParamKey.valence 2) 0
    CalcOutcome.httpError { anger := 4, sadness := 4 } (by decide)
    (Or.inr (Or.inl rfl))

/-- The stale-response race of Claim C2: parameters are edited twice
(`valence := 2` at t1, then `valence := 3` at t2), issuing two
recomputation requests in that order. -/
def staleTrace2 : AppState :=
  paramChangeEvent (paramChangeEvent initState ParamKey.valence 2)
    ParamKey.valence 3

/-- Continuation of the race: t2's response (say `anger = sadness = 3`, for
the body with `valence = 3`, at index 1 of the outstanding list) arrives
first and is applied. -/
def staleTrace3 : AppState :=
  calcDoneEvent staleTrace2 1 (CalcOutcome.success { anger := 3, sadness := 3 })

/-- Continuation of the race: t1's response (say `anger = sadness = 2`, for
the body with `valence = 2`, at index 0) arrives last and is applied
unconditionally — `calculateEmotions` carries no sequence tag and its
continuation never compares issue order. -/
def staleTrace4 : AppState :=
  calcDoneEvent staleTrace3 0 (CalcOutcome.success { anger := 2, sadness := 2 })

/-- Claim C2: the code applies recomputation results in arrival order, with
no sequence numbering — after two requests issued at t1 (valence 2) then t2
(valence 3) whose responses arrive in reverse order, the final
`emotionalState` is t1's result, not t2's as the claim requires.  The
outstanding-request bodies confirm the issue order (valences [2, 3]). -/
theorem stale_response_clobbers_fresh :
    (staleTrace2.pendingCalcs.map fun p => p.valence) = [2, 3] ∧
    staleTrace3.emotionalState = { anger := 3, sadness := 3 } ∧
    staleTrace4.emotionalState = { anger := 2, sadness := 2 } ∧
    staleTrace4.emotionalState ≠ ({ anger := 3, sadness := 3 } : EmotionalState) := by
  refine ⟨?_, ?_, ?_, ?_⟩ <;> decide

/-- An accepted submission: the synchronous prefix of `handleSubmit`,
written out as a single record update. -/
theorem submitEvent_accept (s : AppState) (hp : s.isProcessing = false)
    (hb : s.backendError = false)
    (hne : (jsTrim s.inputMessage).isEmpty = false) :
    submitEvent s =
      { s with
        isProcessing := true
        messages := s.messages ++
          [{ text := s.inputMessage, isUser := true, timestamp := s.now
             emotionalState := none }]
        inputMessage := ""
        backendError := false
        pendingSend := some
          { message := s.inputMessage, parameters := s.parameters
            emotionalState := s.emotionalState }
        now := s.now + 1 } := by
  unfold submitEvent submitEnabled handleSubmitStart
  simp [hp, hb, hne]

/-- Completion dispatch when a `send-message` request is outstanding. -/
theorem sendDoneEvent_some (s : AppState) (p : PendingSend) (o : SendOutcome)
    (h : s.pendingSend = some p) :
    sendDoneEvent s o = handleSubmitComplete s p o := by
  unfold sendDoneEvent
  rw [h]

/-- Every step leaves the existing log entries untouched: the new log is
the old one followed by a (possibly empty) tail, and every appended user
entry carries no snapshot. -/
theorem step_messages_spec (s : AppState) (e : Event) :
    ∃ tail, (step s e).messages = s.messages ++ tail ∧
      ∀ m ∈ tail, m.isUser = true → m.emotionalState = none := by
  cases e with
  | edit q v =>
      refine ⟨[], ?_, by simp⟩
      simp [step, paramChangeEvent, calculateEmotionsStart]
  | calcDone i o =>
      refine ⟨[], ?_, by simp⟩
      simp only [step]
      unfold calcDoneEvent
      split_ifs with h
      · cases o <;> simp [applyCalcOutcome]
      · simp
  | type t =>
      refine ⟨[], ?_, by simp⟩
      simp only [step]
      unfold typeEvent
      split_ifs <;> simp
  | submit =>
      simp only [step]
      unfold submitEvent handleSubmitStart
      split_ifs with h1 h2
      · exact ⟨[], by simp, by simp⟩
      · exact ⟨[{ text := s.inputMessage, isUser := true, timestamp := s.now,
                  emotionalState := none }], rfl, by simp⟩
      · exact ⟨[], by simp, by simp⟩
  | sendDone o =>
      simp only [step]
      rcases hps : s.pendingSend with _ | p
      · refine ⟨[], ?_, by simp⟩
        unfold sendDoneEvent
        rw [hps]
        simp
      · rw [sendDoneEvent_some s p o hps]
        cases o with
        | networkError =>
            exact ⟨[{ text := fallbackText, isUser := false, timestamp := s.now,
                      emotionalState := some p.emotionalState }], rfl, by simp⟩
        | httpError =>
            exact ⟨[{ text := fallbackText, isUser := false, timestamp := s.now,
                      emotionalState := some p.emotionalState }], rfl, by simp⟩
        | decodeError =>
            exact ⟨[{ text := fallbackText, isUser := false, timestamp := s.now,
                      emotionalState := some p.emotionalState }], rfl, by simp⟩
        | success r =>
            exact ⟨[{ text := r, isUser := false, timestamp := s.now,
                      emotionalState := some p.emotionalState }], rfl, by simp⟩

/-- Claim C5: an accepted submission whose reply call fails (network error,
non-success status, or undecodable body) sets `backendError` and the final
log is the original one with the optimistic user entry followed by exactly
one assistant entry whose text is the fixed fallback text and whose
snapshot is the `emotionalState` captured at dispatch; the user's turn is
retained, and the busy flag is released. -/
theorem submit_failure_fallback (s : AppState) (o : SendOutcome)
    (hp : s.isProcessing = false) (hb : s.backendError = false)
    (hne : (jsTrim s.inputMessage).isEmpty = false)
    (ho : o = SendOutcome.networkError ∨ o = SendOutcome.httpError ∨
      o = SendOutcome.decodeError) :
    (sendDoneEvent (submitEvent s) o).backendError = true ∧
    (sendDoneEvent (submitEvent s) o).messages = s.messages ++
      [{ text := s.inputMessage, isUser := true, timestamp := s.now
         emotionalState := none },
       { text := fallbackText, isUser := false, timestamp := s.now + 1
         emotionalState := some s.emotionalState }] ∧
    (sendDoneEvent (submitEvent s) o).isProcessing = false := by
  rw [submitEvent_accept s hp hb hne]
  rw [sendDoneEvent_some _
    { message := s.inputMessage, parameters := s.parameters
      emotionalState := s.emotionalState } o rfl]
  rcases ho with ho | ho | ho <;> subst ho <;>
    simp [handleSubmitComplete]

/-- Claim C5 witness: a failed submission of "hello" from the initial
state. -/
theorem submit_failure_fallback_witness :
    (sendDoneEvent (submitEvent { initState with inputMessage := "hello" })
      SendOutcome.networkError).backendError = true ∧
    (sendDoneEvent (submitEvent { initState with inputMessage := "hello" })
      SendOutcome.networkError).messages = initState.messages ++
      [{ text := "hello", isUser := true, timestamp := initState.now
         emotionalState := none },
       { text := fallbackText, isUser := false, timestamp := initState.now + 1
         emotionalState := some initState.emotionalState }] ∧
    (sendDoneEvent (submitEvent { initState with inputMessage := "hello" })
      SendOutcome.networkError).isProcessing = false :=
  submit_failure_fallback { initState with inputMessage := "hello" }
    SendOutcome.networkError rfl rfl (by decide) (Or.inl rfl)

/-- One successful submission round: the user types `t`, submits, and the
reply collaborator answers `r`. -/
def successfulRound (s : AppState) (t r : String) : AppState :=
  sendDoneEvent (submitEvent (typeEvent s t)) (SendOutcome.success r)

/-- A sequence of successful submission rounds, one per (text, reply)
pair. -/
def runRounds (s : AppState) : List (String × String) → AppState
  | [] => s
  | (t, r) :: rest => runRounds (successfulRound s t r) rest

/-- The log entries produced by a sequence of successful rounds: for each
pair, the user entry (no snapshot) then the assistant entry carrying the
snapshot `e`, timestamps advancing two ticks per round. -/
def roundMessages (e : EmotionalState) (clock : Nat) :
    List (String × String) → List Message
  | [] => []
  | (t, r) :: rest =>
      { text := t, isUser := true, timestamp := clock,
        emotionalState := none } ::
      { text := r, isUser := false, timestamp := clock + 1,
        emotionalState := some e } ::
      roundMessages e (clock + 2) rest

/-- A successful round appends exactly the user entry and the assistant
entry, clears the input, leaves both flags clear, keeps `emotionalState`,
and advances the clock two ticks. -/
theorem successfulRound_spec (s : AppState) (t r : String)
    (hp : s.isProcessing = false) (hb : s.backendError = false)
    (hne : (jsTrim t).isEmpty = false) :
    successfulRound s t r =
      { s with
        messages := s.messages ++
          [{ text := t, isUser := true, timestamp := s.now,
             emotionalState := none },
           { text := r, isUser := false, timestamp := s.now + 1,
             emotionalState := some s.emotionalState }]
        inputMessage := ""
        isProcessing := false
        backendError := false
        pendingSend := none
        now := s.now + 2 } := by
  unfold successfulRound
  have ht : typeEvent s t = { s with inputMessage := t } := by
    unfold typeEvent submitEnabled
    simp [hp, hb]
  rw [ht]
  rw [submitEvent_accept { s with inputMessage := t } hp hb hne]
  rw [sendDoneEvent_some _
    { message := t, parameters := s.parameters,
      emotionalState := s.emotionalState } (SendOutcome.success r) rfl]
  simp [handleSubmitComplete]

/-- Running rounds from a quiescent state appends exactly the expected
interleaved entries and returns to a quiescent state. -/
theorem runRounds_spec (prs : List (String × String)) : ∀ s : AppState,
    s.isProcessing = false → s.backendError = false →
    (∀ pr ∈ prs, (jsTrim pr.1).isEmpty = false) →
    (runRounds s prs).messages =
      s.messages ++ roundMessages s.emotionalState s.now prs ∧
    (runRounds s prs).isProcessing = false ∧
    (runRounds s prs).backendError = false := by
  induction prs with
  | nil =>
      intro s hp hb _
      simp only [runRounds, roundMessages]
      exact ⟨by simp, hp, hb⟩
  | cons pr rest ih =>
      intro s hp hb hall
      obtain ⟨t, r⟩ := pr
      have hne : (jsTrim t).isEmpty = false := hall (t, r) (by simp)
      have hsr := successfulRound_spec s t r hp hb hne
      simp only [runRounds]
      obtain ⟨h1, h2, h3⟩ := ih (successfulRound s t r) (by rw [hsr])
        (by rw [hsr]) (fun pr hpr => hall pr (by simp [hpr]))
      refine ⟨?_, h2, h3⟩
      rw [h1, hsr]
      simp [roundMessages]

/-- Claim C7: for every accepted submission, the user's message is appended
(optimistically, with the request issued in the same synchronous prefix,
before any network result); every step only ever appends to the log, never
mutating, reordering or deleting prior entries; and after N successful
submissions from an empty log, the log is exactly the N user entries and N
assistant entries, strictly interleaved user-then-assistant in submission
order. -/
theorem conversationLog_interleaving :
    (∀ s : AppState, s.isProcessing = false → s.backendError = false →
      (jsTrim s.inputMessage).isEmpty = false →
      (submitEvent s).messages = s.messages ++
        [{ text := s.inputMessage, isUser := true, timestamp := s.now,
           emotionalState := none }] ∧
      (submitEvent s).pendingSend = some
        { message := s.inputMessage, parameters := s.parameters,
          emotionalState := s.emotionalState }) ∧
    (∀ (s : AppState) (e : Event),
      ∃ tail, (step s e).messages = s.messages ++ tail) ∧
    (∀ (s : AppState) (prs : List (String × String)),
      s.isProcessing = false → s.backendError = false → s.messages = [] →
      (∀ pr ∈ prs, (jsTrim pr.1).isEmpty = false) →
      (runRounds s prs).messages =
        roundMessages s.emotionalState s.now prs) ∧
    (∀ (e : EmotionalState) (c : Nat) (prs : List (String × String)),
      ((roundMessages e c prs).filter (fun m => m.isUser)).length =
        prs.length ∧
      ((roundMessages e c prs).filter (fun m => !m.isUser)).length =
        prs.length) := by
  refine ⟨?_, ?_, ?_, ?_⟩
  · intro s hp hb hne
    rw [submitEvent_accept s hp hb hne]
    exact ⟨rfl, rfl⟩
  · intro s e
    obtain ⟨tail, h, _⟩ := step_messages_spec s e
    exact ⟨tail, h⟩
  · intro s prs hp hb hm hall
    have h := (runRounds_spec prs s hp hb hall).1
    rw [h, hm]
    simp
  · intro e c prs
    induction prs generalizing c with
    | nil => simp [roundMessages]
    | cons pr rest ih =>
        obtain ⟨t, r⟩ := pr
        simp only [roundMessages, List.filter, List.length]
        have := ih (c + 2)
        constructor <;> simp [this.1, this.2]

/-- Claim C7 witness: one successful round ("hi" answered by "ok") from the
initial state yields exactly the interleaved pair of entries. -/
theorem conversationLog_interleaving_witness :
    (runRounds initState [("hi", "ok")]).messages =
      roundMessages initState.emotionalState initState.now [("hi", "ok")] :=
  conversationLog_interleaving.2.2.1 initState [("hi", "ok")] rfl rfl rfl
    (by decide)

/-- Events other than the arrival of the `send-message` response. -/
def preservesPending (e : Event) : Bool :=
  match e with
  | .sendDone _ => false
  | _ => true

/-- The assistant text produced by `handleSubmit` for a given outcome: the
decoded `data.reply` on success, the fixed fallback text on any thrown
error. -/
def replyText (o : SendOutcome) : String :=
  match o with
  | .success r => r
  | .networkError => fallbackText
  | .httpError => fallbackText
  | .decodeError => fallbackText

/-- While a submission is in flight, no other event disturbs the busy flag
or the captured closure of the outstanding request. -/
theorem step_keeps_pending (s : AppState) (e : Event) (p : PendingSend)
    (hip : s.isProcessing = true) (hps : s.pendingSend = some p)
    (he : preservesPending e = true) :
    (step s e).isProcessing = true ∧ (step s e).pendingSend = some p := by
  cases e with
  | edit q v =>
      simp only [step]
      unfold paramChangeEvent calculateEmotionsStart
      exact ⟨hip, hps⟩
  | calcDone i o =>
      simp only [step]
      unfold calcDoneEvent
      split_ifs with h
      · cases o <;> exact ⟨hip, hps⟩
      · exact ⟨hip, hps⟩
  | type t =>
      simp only [step]
      unfold typeEvent submitEnabled
      simp [hip, hps]
  | submit =>
      simp only [step]
      unfold submitEvent submitEnabled
      simp [hip, hps]
  | sendDone o =>
      simp [preservesPending] at he

/-- `step_keeps_pending`, extended along an event sequence. -/
theorem run_keeps_pending (l : List Event) : ∀ (s : AppState) (p : PendingSend),
    s.isProcessing = true → s.pendingSend = some p →
    (∀ e ∈ l, preservesPending e = true) →
    (run s l).isProcessing = true ∧ (run s l).pendingSend = some p := by
  induction l with
  | nil =>
      intro s p h1 h2 _
      exact ⟨h1, h2⟩
  | cons e rest ih =>
      intro s p h1 h2 hall
      have h := step_keeps_pending s e p h1 h2 (hall e (by simp))
      exact ih (step s e) p h.1 h.2 (fun x hx => hall x (by simp [hx]))

/-- Claim C9: every user entry in the log carries no emotional snapshot
(preserved by every step); every step only appends, so no later state
change ever alters an existing entry's snapshot (the snapshot is a value
copy, not a live reference); and the assistant entry appended when a
submission completes carries the `emotionalState` that was current at
dispatch time, even when parameter edits and emotion-recomputation results
land while the request is in flight. -/
theorem snapshot_discipline :
    (∀ (s : AppState) (e : Event),
      (∀ m ∈ s.messages, m.isUser = true → m.emotionalState = none) →
      ∀ m ∈ (step s e).messages, m.isUser = true → m.emotionalState = none) ∧
    (∀ (s : AppState) (e : Event),
      ∃ tail, (step s e).messages = s.messages ++ tail) ∧
    (∀ (s : AppState) (l : List Event) (o : SendOutcome),
      s.isProcessing = false → s.backendError = false →
      (jsTrim s.inputMessage).isEmpty = false →
      (∀ e ∈ l, preservesPending e = true) →
      (sendDoneEvent (run (submitEvent s) l) o).messages =
        (run (submitEvent s) l).messages ++
          [{ text := replyText o, isUser := false,
             timestamp := (run (submitEvent s) l).now,
             emotionalState := some s.emotionalState }]) := by
  refine ⟨?_, ?_, ?_⟩
  · intro s e hinv m hm
    obtain ⟨tail, heq, htail⟩ := step_messages_spec s e
    rw [heq] at hm
    rcases List.mem_append.mp hm with h | h
    · exact hinv m h
    · exact htail m h
  · intro s e
    obtain ⟨tail, heq, _⟩ := step_messages_spec s e
    exact ⟨tail, heq⟩
  · intro s l o hp hb hne hall
    have hacc := submitEvent_accept s hp hb hne
    have hpend : (submitEvent s).isProcessing = true ∧
        (submitEvent s).pendingSend = some
          { message := s.inputMessage, parameters := s.parameters,
            emotionalState := s.emotionalState } := by
      rw [hacc]
      exact ⟨rfl, rfl⟩
    have hkeep := run_keeps_pending l (submitEvent s)
      { message := s.inputMessage, parameters := s.parameters,
        emotionalState := s.emotionalState } hpend.1 hpend.2 hall
    rw [sendDoneEvent_some _ _ o hkeep.2]
    cases o <;> simp [handleSubmitComplete, replyText]

/-- Claim C9 witness: during a submission of "hi" from the initial state, a
`valence` edit lands in flight; the assistant entry still carries the
dispatch-time snapshot. -/
theorem snapshot_discipline_witness :
    (sendDoneEvent
      (run (submitEvent { initState with inputMessage := "hi" })
        [Event.edit ParamKey.valence 2]) (SendOutcome.success "ok")).messages =
      (run (submitEvent { initState with inputMessage := "hi" })
        [Event.edit ParamKey.valence 2]).messages ++
        [{ text := replyText (SendOutcome.success "ok"), isUser := false,
           timestamp := (run (submitEvent { initState with inputMessage := "hi" })
             [Event.edit ParamKey.valence 2]).now,
           emotionalState := some initState.emotionalState }] :=
  snapshot_discipline.2.2 { initState with inputMessage := "hi" }
    [Event.edit ParamKey.valence 2] (SendOutcome.success "ok") rfl rfl
    (by decide) (by decide)

end FrontendAI
